import Mathlib

/-!
Verification of the `tx-custom-boot` boot.dat builder (`src/lib.rs`).

The Rust crate builds a `boot.dat` container: a 256-byte header followed by
the payload.  Bytes are modelled as `Nat` (values `< 256`), buffers as
`List Nat`, and `u32` arithmetic as `Nat` reduced `% 2^32`.  SHA-256 is
embedded directly (FIPS 180-4) so that the digests stored in the header are
real and the end-to-end test vectors of the crate can be checked by `decide`.
-/

set_option maxRecDepth 8192

namespace TxCustomBoot

/-- Reduce to a 32-bit word. -/
def w32 (x : Nat) : Nat := x % 4294967296

/-- 32-bit right rotation. -/
def rotr (n x : Nat) : Nat := w32 ((x >>> n) ||| (x <<< (32 - n)))

/-- Big-endian bytes of a 32-bit word. -/
def be32 (x : Nat) : List Nat :=
  [x / 16777216 % 256, x / 65536 % 256, x / 256 % 256, x % 256]

/-- Big-endian bytes of a 64-bit length field. -/
def be64 (x : Nat) : List Nat :=
  [x / 72057594037927936 % 256, x / 281474976710656 % 256,
   x / 1099511627776 % 256, x / 4294967296 % 256,
   x / 16777216 % 256, x / 65536 % 256, x / 256 % 256, x % 256]

/-- SHA-256 round constants (FIPS 180-4 section 4.2.2, in decimal). -/
def shaK : List Nat :=
  [1116352408, 1899447441, 3049323471, 3921009573, 961987163,
   1508970993, 2453635748, 2870763221, 3624381080, 310598401,
   607225278, 1426881987, 1925078388, 2162078206, 2614888103,
   3248222580, 3835390401, 4022224774, 264347078, 604807628,
   770255983, 1249150122, 1555081692, 1996064986, 2554220882,
   2821834349, 2952996808, 3210313671, 3336571891, 3584528711,
   113926993, 338241895, 666307205, 773529912, 1294757372,
   1396182291, 1695183700, 1986661051, 2177026350, 2456956037,
   2730485921, 2820302411, 3259730800, 3345764771, 3516065817,
   3600352804, 4094571909, 275423344, 430227734, 506948616,
   659060556, 883997877, 958139571, 1322822218, 1537002063,
   1747873779, 1955562222, 2024104815, 2227730452, 2361852424,
   2428436474, 2756734187, 3204031479, 3329325298]

/-- SHA-256 initial hash state (FIPS 180-4 section 5.3.3, in decimal). -/
def shaH0 : Nat × Nat × Nat × Nat × Nat × Nat × Nat × Nat :=
  (1779033703, 3144134277, 1013904242, 2773480762,
   1359893119, 2600822924, 528734635, 1541459225)

/-- Pack a byte list into big-endian 32-bit words, four bytes at a time. -/
def toWords : List Nat → List Nat
  | b0 :: b1 :: b2 :: b3 :: rest =>
      (((b0 * 256 + b1) * 256 + b2) * 256 + b3) :: toWords rest
  | _ => []

/-- Small sigma 0: rotr 7 xor rotr 18 xor shr 3. -/
def ssig0 (x : Nat) : Nat := rotr 7 x ^^^ rotr 18 x ^^^ (x >>> 3)

/-- Small sigma 1: rotr 17 xor rotr 19 xor shr 10. -/
def ssig1 (x : Nat) : Nat := rotr 17 x ^^^ rotr 19 x ^^^ (x >>> 10)

/-- Extend the message schedule: `win` holds the previous 16 words, produce
`n` further words. -/
def schedExt (win : List Nat) : Nat → List Nat
  | 0 => []
  | n + 1 =>
      let nw := w32 (ssig1 (win.getD 14 0) + win.getD 9 0 +
                     ssig0 (win.getD 1 0) + win.getD 0 0)
      nw :: schedExt (win.drop 1 ++ [nw]) n

/-- The 64-word message schedule of one block. -/
def msgSched (block : List Nat) : List Nat :=
  let w16 := toWords block
  w16 ++ schedExt w16 48

/-- One round of the SHA-256 compression loop per `(word, constant)` pair. -/
def compressLoop :
    List (Nat × Nat) →
    Nat × Nat × Nat × Nat × Nat × Nat × Nat × Nat →
    Nat × Nat × Nat × Nat × Nat × Nat × Nat × Nat
  | [], st => st
  | (wi, ki) :: rest, (a, b, c, d, e, f, g, h) =>
      let s1 := rotr 6 e ^^^ rotr 11 e ^^^ rotr 25 e
      let ch := (e &&& f) ^^^ ((e ^^^ 4294967295) &&& g)
      let t1 := w32 (h + s1 + ch + ki + wi)
      let s0 := rotr 2 a ^^^ rotr 13 a ^^^ rotr 22 a
      let mj := (a &&& b) ^^^ (a &&& c) ^^^ (b &&& c)
      let t2 := w32 (s0 + mj)
      compressLoop rest (w32 (t1 + t2), a, b, c, w32 (d + t1), e, f, g)

/-- Compress one 64-byte block into the running hash state. -/
def compress (hs : Nat × Nat × Nat × Nat × Nat × Nat × Nat × Nat)
    (block : List Nat) : Nat × Nat × Nat × Nat × Nat × Nat × Nat × Nat :=
  let (a, b, c, d, e, f, g, h) := compressLoop ((msgSched block).zip shaK) hs
  let (h0, h1, h2, h3, h4, h5, h6, h7) := hs
  (w32 (h0 + a), w32 (h1 + b), w32 (h2 + c), w32 (h3 + d),
   w32 (h4 + e), w32 (h5 + f), w32 (h6 + g), w32 (h7 + h))

/-- FIPS 180-4 padding: append 0x80, zeros, and the 64-bit bit length. -/
def shaPad (msg : List Nat) : List Nat :=
  msg ++ 0x80 :: List.replicate ((64 - (msg.length + 9) % 64) % 64) 0 ++
    be64 (8 * msg.length)

/-- Serialize the final state to the 32 digest bytes. -/
def stateBytes : Nat × Nat × Nat × Nat × Nat × Nat × Nat × Nat → List Nat
  | (a, b, c, d, e, f, g, h) =>
      be32 a ++ be32 b ++ be32 c ++ be32 d ++ be32 e ++ be32 f ++ be32 g ++ be32 h

/-- SHA-256 of a byte list. -/
def sha256 (msg : List Nat) : List Nat :=
  let p := shaPad msg
  stateBytes ((List.range (p.length / 64)).foldl
    (fun hs i => compress hs ((p.drop (64 * i)).take 64)) shaH0)

/-! ## The boot.dat builder (`src/lib.rs`) -/

/-- Error enum of the crate (`enum Error`). -/
inductive Error where
  | IoError : String → Error
  | HashError : Error
  | TruncationError : Error
deriving DecidableEq, Repr

/-- `struct BootDatInner`: the first 0xE0 bytes of the header.  Fixed byte
arrays are byte lists, `u32` fields are `Nat` (serialized `% 2^32`). -/
structure BootDatInner where
  ident : List Nat
  vers : List Nat
  sha2_s2 : List Nat
  s2_dst : Nat
  s2_size : Nat
  s2_enc : Nat
  pad : List Nat
  s3_size : Nat
  pad2 : List Nat

/-- `struct BootDatHeader`: inner header followed by the header digest. -/
structure BootDatHeader where
  inner : BootDatInner
  sha2_hdr : List Nat

/-- Little-endian serialization of a `u32` field (binwrite `little`). -/
def le32 (x : Nat) : List Nat :=
  [x % 256, x / 256 % 256, x / 65536 % 256, x / 16777216 % 256]

/-- `BootDatInner::write`: binwrite serializes the fields in declaration
order, little-endian. -/
def BootDatInner.write (h : BootDatInner) : List Nat :=
  h.ident ++ h.vers ++ h.sha2_s2 ++ le32 h.s2_dst ++ le32 h.s2_size ++
    le32 h.s2_enc ++ h.pad ++ le32 h.s3_size ++ h.pad2

/-- `BootDatHeader::write`: the inner header then the 32 digest bytes. -/
def BootDatHeader.write (h : BootDatHeader) : List Nat :=
  h.inner.write ++ h.sha2_hdr

/-- `Default` for `BootDatInner`: every array zeroed, every integer 0. -/
def BootDatInner.default : BootDatInner :=
  { ident := List.replicate 0xc 0
    vers := List.replicate 0x4 0
    sha2_s2 := List.replicate 0x20 0
    s2_dst := 0
    s2_size := 0
    s2_enc := 0
    pad := List.replicate 0x10 0
    s3_size := 0
    pad2 := List.replicate 0x90 0 }

/-- `fn sha256_digest`: SHA-256 of a byte array. -/
def sha256_digest (toHash : List Nat) : List Nat := sha256 toHash

/-- The `ident` constant written by `generate_boot_dat` ("Insane BOOT\x00"). -/
def identInsane : List Nat :=
  [0x49, 0x6e, 0x73, 0x61, 0x6e, 0x65, 0x20, 0x42, 0x4F, 0x4F, 0x54, 0x00]

/-- The `vers` constant written by `generate_boot_dat` ("V1.0"). -/
def versV10 : List Nat := [0x56, 0x31, 0x2E, 0x30]

/-- `fn generate_boot_dat`: fill the header, digest the payload, serialize
the inner header, digest it, serialize the whole header and append the
payload.  The two `try_into` digest-length checks map `Err` to `HashError`;
`u32::value_from(payload.len())` fails with `TruncationError` iff the length
exceeds `u32::MAX`. -/
def generate_boot_dat (payload : List Nat) : Except Error (List Nat) :=
  let header0 : BootDatHeader :=
    { inner := BootDatInner.default, sha2_hdr := List.replicate 0x20 0 }
  let stage2Sha256 := sha256_digest payload
  if stage2Sha256.length = 32 then
    if payload.length < 4294967296 then
      let inner : BootDatInner :=
        { header0.inner with
            ident := identInsane
            vers := versV10
            sha2_s2 := stage2Sha256
            s2_dst := 0x40010000
            s2_size := payload.length }
      let innerSerialized := inner.write
      let headerInnerSha256 := sha256_digest innerSerialized
      if headerInnerSha256.length = 32 then
        let header : BootDatHeader := { inner := inner, sha2_hdr := headerInnerSha256 }
        Except.ok (header.write ++ payload)
      else
        Except.error Error.HashError
    else
      Except.error Error.TruncationError
  else
    Except.error Error.HashError

/-- The success-path output of `generate_boot_dat`, as a total function:
serialized inner header, header digest, payload. -/
def bootDat (payload : List Nat) : List Nat :=
  let inner : BootDatInner :=
    { BootDatInner.default with
        ident := identInsane
        vers := versV10
        sha2_s2 := sha256_digest payload
        s2_dst := 0x40010000
        s2_size := payload.length }
  inner.write ++ sha256_digest inner.write ++ payload

/-- The serialized inner header of the success path, flattened. -/
def innerBytes (payload : List Nat) : List Nat :=
  identInsane ++ versV10 ++ sha256_digest payload ++ le32 0x40010000 ++
    le32 payload.length ++ le32 0 ++ List.replicate 0x10 0 ++ le32 0 ++
    List.replicate 0x90 0

/-- Decode four bytes as a little-endian unsigned 32-bit integer
(`read_le_u32` of the spec, section 8). -/
def read_le_u32 (bs : List Nat) : Nat :=
  bs.getD 0 0 + 256 * bs.getD 1 0 + 65536 * bs.getD 2 0 +
    16777216 * bs.getD 3 0

/-- Variant B ident constant ("CTCaer BOOT\x00", spec section 3). -/
def identCTCaer : List Nat :=
  [0x43, 0x54, 0x43, 0x61, 0x65, 0x72, 0x20, 0x42, 0x4F, 0x4F, 0x54, 0x00]

/-- Variant B vers constant ("V2.5", spec section 3). -/
def versV25 : List Nat := [0x56, 0x32, 0x2E, 0x35]

/-- Modelled from the spec: the spec (sections 3 and 9) describes a
builder parameterized over the variant's `ident`/`vers` constants, with
two presets; no such parameterization exists under `src/`, where
`generate_boot_dat` hardcodes the Variant A constants.  This is
`generate_boot_dat` with the two constants as parameters. -/
def generate_boot_dat_variant (ident vers payload : List Nat) :
    Except Error (List Nat) :=
  let header0 : BootDatHeader :=
    { inner := BootDatInner.default, sha2_hdr := List.replicate 0x20 0 }
  let stage2Sha256 := sha256_digest payload
  if stage2Sha256.length = 32 then
    if payload.length < 4294967296 then
      let inner : BootDatInner :=
        { header0.inner with
            ident := ident
            vers := vers
            sha2_s2 := stage2Sha256
            s2_dst := 0x40010000
            s2_size := payload.length }
      let innerSerialized := inner.write
      let headerInnerSha256 := sha256_digest innerSerialized
      if headerInnerSha256.length = 32 then
        let header : BootDatHeader := { inner := inner, sha2_hdr := headerInnerSha256 }
        Except.ok (header.write ++ payload)
      else
        Except.error Error.HashError
    else
      Except.error Error.TruncationError
  else
    Except.error Error.HashError

/-! ## Helper lemmas -/

/-- Sanity: SHA-256 of the empty string (FIPS test vector). -/
theorem sha256_nil :
    sha256 [] =
    [0xe3, 0xb0, 0xc4, 0x42, 0x98, 0xfc, 0x1c, 0x14, 0x9a, 0xfb, 0xf4, 0xc8,
     0x99, 0x6f, 0xb9, 0x24, 0x27, 0xae, 0x41, 0xe4, 0x64, 0x9b, 0x93, 0x4c,
     0xa4, 0x95, 0x99, 0x1b, 0x78, 0x52, 0xb8, 0x55] := by decide

/-- Sanity: SHA-256 of "abc" (FIPS test vector). -/
theorem sha256_abc :
    sha256 [0x61, 0x62, 0x63] =
    [0xba, 0x78, 0x16, 0xbf, 0x8f, 0x01, 0xcf, 0xea, 0x41, 0x41, 0x40, 0xde,
     0x5d, 0xae, 0x22, 0x23, 0xb0, 0x03, 0x61, 0xa3, 0x96, 0x17, 0x7a, 0x9c,
     0xb4, 0x10, 0xff, 0x61, 0xf2, 0x00, 0x15, 0xad] := by decide

/-- Serializing any final state yields 32 bytes. -/
theorem stateBytes_length (st : Nat × Nat × Nat × Nat × Nat × Nat × Nat × Nat) :
    (stateBytes st).length = 32 := by
  obtain ⟨a, b, c, d, e, f, g, h⟩ := st
  simp [stateBytes, be32]

/-- SHA-256 always produces exactly 32 bytes. -/
theorem sha256_length (m : List Nat) : (sha256 m).length = 32 := by
  simp [sha256, stateBytes_length]

/-- `sha256_digest` always produces exactly 32 bytes. -/
theorem sha256_digest_length (m : List Nat) : (sha256_digest m).length = 32 := by
  simp [sha256_digest, sha256_length]

/-- The serialized inner header is 0xE0 = 224 bytes long. -/
theorem innerBytes_length (p : List Nat) : (innerBytes p).length = 224 := by
  simp [innerBytes, identInsane, versV10, le32, sha256_digest_length]

/-- `bootDat` is the inner header bytes, the header digest, the payload. -/
theorem bootDat_eq (p : List Nat) :
    bootDat p = innerBytes p ++ (sha256_digest (innerBytes p) ++ p) := by
  simp [bootDat, innerBytes, BootDatInner.write, BootDatInner.default,
    List.append_assoc]

/-- On any payload that fits in `u32`, `generate_boot_dat` succeeds and
returns exactly `bootDat payload`. -/
theorem generate_ok (p : List Nat) (h : p.length < 4294967296) :
    generate_boot_dat p = Except.ok (bootDat p) := by
  simp [generate_boot_dat, bootDat, sha256_digest_length, h,
    BootDatHeader.write]

/-- On any payload that does not fit in `u32`, `generate_boot_dat` fails
with `TruncationError`. -/
theorem generate_trunc (p : List Nat) (h : ¬ p.length < 4294967296) :
    generate_boot_dat p = Except.error Error.TruncationError := by
  simp [generate_boot_dat, sha256_digest_length, h]

/-! ## Claim theorems -/

/-- C1: for every payload whose length fits in `u32`, `generate_boot_dat`
succeeds and bytes 0xE0..0x100 of the returned buffer equal the SHA-256
digest of bytes 0x00..0xE0 of that same buffer. -/
theorem sha2_hdr_digests_header_prefix (p : List Nat)
    (h : p.length < 4294967296) :
    generate_boot_dat p = Except.ok (bootDat p) ∧
    ((bootDat p).drop 0xE0).take 0x20 = sha256 ((bootDat p).take 0xE0) := by
  refine ⟨generate_ok p h, ?_⟩
  rw [bootDat_eq, List.drop_left' (innerBytes_length p),
    List.take_left' (innerBytes_length p),
    List.take_left' (sha256_digest_length (innerBytes p))]
  rfl

/-- C1 witness: the property of `sha2_hdr_digests_header_prefix` holds at
the empty payload. -/
theorem sha2_hdr_digests_header_prefix_witness :
    ([] : List Nat).length < 4294967296 ∧
    (generate_boot_dat [] = Except.ok (bootDat []) ∧
     ((bootDat []).drop 0xE0).take 0x20 = sha256 ((bootDat []).take 0xE0)) :=
  ⟨by decide, sha2_hdr_digests_header_prefix [] (by decide)⟩

/-- C2: for every payload whose length fits in `u32`, bytes 0x10..0x30 of
the returned buffer equal the SHA-256 digest of the payload; in particular
for the empty payload they equal SHA-256 of the empty byte string. -/
theorem sha2_s2_digests_payload (p : List Nat) (h : p.length < 4294967296) :
    generate_boot_dat p = Except.ok (bootDat p) ∧
    ((bootDat p).drop 0x10).take 0x20 = sha256 p ∧
    ((bootDat []).drop 0x10).take 0x20 =
      [0xe3, 0xb0, 0xc4, 0x42, 0x98, 0xfc, 0x1c, 0x14, 0x9a, 0xfb, 0xf4,
       0xc8, 0x99, 0x6f, 0xb9, 0x24, 0x27, 0xae, 0x41, 0xe4, 0x64, 0x9b,
       0x93, 0x4c, 0xa4, 0x95, 0x99, 0x1b, 0x78, 0x52, 0xb8, 0x55] := by
  have hs : bootDat p =
      (identInsane ++ versV10) ++
        (sha256_digest p ++
          (le32 0x40010000 ++ (le32 p.length ++ (le32 0 ++
            (List.replicate 0x10 0 ++ (le32 0 ++ (List.replicate 0x90 0 ++
              (sha256_digest (innerBytes p) ++ p)))))))) := by
    simp [bootDat, innerBytes, BootDatInner.write, BootDatInner.default,
      List.append_assoc]
  refine ⟨generate_ok p h, ?_, by decide⟩
  rw [hs, List.drop_left' (by simp [identInsane, versV10]),
    List.take_left' (sha256_digest_length p)]
  rfl

/-- C2 witness: the property of `sha2_s2_digests_payload` holds at the
empty payload. -/
theorem sha2_s2_digests_payload_witness :
    ([] : List Nat).length < 4294967296 ∧
    (generate_boot_dat [] = Except.ok (bootDat []) ∧
     ((bootDat []).drop 0x10).take 0x20 = sha256 [] ∧
     ((bootDat []).drop 0x10).take 0x20 =
      [0xe3, 0xb0, 0xc4, 0x42, 0x98, 0xfc, 0x1c, 0x14, 0x9a, 0xfb, 0xf4,
       0xc8, 0x99, 0x6f, 0xb9, 0x24, 0x27, 0xae, 0x41, 0xe4, 0x64, 0x9b,
       0x93, 0x4c, 0xa4, 0x95, 0x99, 0x1b, 0x78, 0x52, 0xb8, 0x55]) :=
  ⟨by decide, sha2_s2_digests_payload [] (by decide)⟩

/-- C3: for every payload whose length fits in `u32`, the returned buffer
has length exactly `256 + len(payload)`. -/
theorem output_length (p : List Nat) (h : p.length < 4294967296) :
    generate_boot_dat p = Except.ok (bootDat p) ∧
    (bootDat p).length = 256 + p.length := by
  refine ⟨generate_ok p h, ?_⟩
  rw [bootDat_eq]
  simp [innerBytes_length, sha256_digest_length]
  omega

/-- C3 witness: the property of `output_length` holds at a three-byte
payload. -/
theorem output_length_witness :
    ([0x0A, 0x0B, 0x0C] : List Nat).length < 4294967296 ∧
    (generate_boot_dat [0x0A, 0x0B, 0x0C] =
      Except.ok (bootDat [0x0A, 0x0B, 0x0C]) ∧
     (bootDat [0x0A, 0x0B, 0x0C]).length = 256 + [0x0A, 0x0B, 0x0C].length) :=
  ⟨by decide, output_length [0x0A, 0x0B, 0x0C] (by decide)⟩

/-- C4: for every payload whose length fits in `u32`, the bytes of the
returned buffer from offset 0x100 on equal the payload verbatim. -/
theorem payload_verbatim (p : List Nat) (h : p.length < 4294967296) :
    generate_boot_dat p = Except.ok (bootDat p) ∧
    (bootDat p).drop 0x100 = p := by
  have hs : bootDat p =
      (innerBytes p ++ sha256_digest (innerBytes p)) ++ p := by
    rw [bootDat_eq, List.append_assoc]
  refine ⟨generate_ok p h, ?_⟩
  rw [hs, List.drop_left'
    (by simp [innerBytes_length, sha256_digest_length])]

/-- C4 witness: the property of `payload_verbatim` holds at a three-byte
payload. -/
theorem payload_verbatim_witness :
    ([0x0A, 0x0B, 0x0C] : List Nat).length < 4294967296 ∧
    (generate_boot_dat [0x0A, 0x0B, 0x0C] =
      Except.ok (bootDat [0x0A, 0x0B, 0x0C]) ∧
     (bootDat [0x0A, 0x0B, 0x0C]).drop 0x100 = [0x0A, 0x0B, 0x0C]) :=
  ⟨by decide, payload_verbatim [0x0A, 0x0B, 0x0C] (by decide)⟩

/-- Decoding the little-endian serialization of a `u32` recovers the value
modulo `2^32`. -/
theorem read_le_u32_le32 (x : Nat) : read_le_u32 (le32 x) = x % 4294967296 := by
  simp [read_le_u32, le32]
  omega

/-- C5: `generate_boot_dat` returns `TruncationError` exactly when the
payload length exceeds `2^32 - 1`; a payload of length `2^32` fails with
`TruncationError` while payloads of length `2^32 - 1` and `0` succeed. -/
theorem truncation_error_iff :
    (∀ p : List Nat,
      generate_boot_dat p = Except.error Error.TruncationError ↔
        4294967296 ≤ p.length) ∧
    generate_boot_dat (List.replicate 4294967296 0) =
      Except.error Error.TruncationError ∧
    generate_boot_dat (List.replicate 4294967295 0) =
      Except.ok (bootDat (List.replicate 4294967295 0)) ∧
    generate_boot_dat [] = Except.ok (bootDat []) := by
  refine ⟨fun p => ?_, ?_, ?_, ?_⟩
  · by_cases h : p.length < 4294967296
    · rw [generate_ok p h]
      simp
      omega
    · rw [generate_trunc p h]
      simp
      omega
  · exact generate_trunc _ (by rw [List.length_replicate]; omega)
  · exact generate_ok _ (by rw [List.length_replicate]; omega)
  · exact generate_ok _ (by decide)

/-- C6 counterexample: there is no variant selection in the code, and the
SHA-256 of the buffer `generate_boot_dat` returns for payload
`[0x0A, 0x0B, 0x0C]` is not the Variant B ("CTCaer BOOT"/V2.5) hash
`ce41...` claimed for that payload: the code builds Variant A
unconditionally. -/
theorem no_variant_b_output :
    generate_boot_dat [0x0A, 0x0B, 0x0C] =
      Except.ok (bootDat [0x0A, 0x0B, 0x0C]) ∧
    (bootDat [0x0A, 0x0B, 0x0C]).take 0x0C = identInsane ∧
    sha256 (bootDat [0x0A, 0x0B, 0x0C]) ≠
      [0xce, 0x41, 0x20, 0x9e, 0x72, 0xb8, 0x31, 0x1f, 0xd5, 0xcf, 0x44,
       0xbe, 0x14, 0x7a, 0xc0, 0x64, 0x1a, 0x30, 0x3e, 0xb3, 0xf9, 0xa2,
       0xed, 0x27, 0xc8, 0x2f, 0xfb, 0x1e, 0x95, 0x1a, 0x09, 0x6f] :=
  ⟨generate_ok _ (by decide), by decide, by decide⟩

/-- C6 (amended): `generate_boot_dat` hardcodes the Variant A constants
(no build-time or config-flag selection exists under `src/`); it agrees
with the spec-modelled variant-parameterized builder instantiated at the
Variant A constants, and that builder instantiated at the Variant B
constants ("CTCaer BOOT"/V2.5) yields, for payload `[0x0A, 0x0B, 0x0C]`, a
buffer whose SHA-256 is
`ce41209e72b8311fd5cf44be147ac0641a303eb3f9a2ed27c82ffb1e951a096f`. -/
theorem variant_a_hardcoded :
    (∀ p : List Nat,
      generate_boot_dat p = generate_boot_dat_variant identInsane versV10 p) ∧
    ((generate_boot_dat_variant identCTCaer versV25
        [0x0A, 0x0B, 0x0C]).toOption.map sha256) =
      some
        [0xce, 0x41, 0x20, 0x9e, 0x72, 0xb8, 0x31, 0x1f, 0xd5, 0xcf, 0x44,
         0xbe, 0x14, 0x7a, 0xc0, 0x64, 0x1a, 0x30, 0x3e, 0xb3, 0xf9, 0xa2,
         0xed, 0x27, 0xc8, 0x2f, 0xfb, 0x1e, 0x95, 0x1a, 0x09, 0x6f] :=
  ⟨fun _ => rfl, by decide⟩

/-- C7: for payload `[0x0A, 0x0B, 0x0C]` (Variant A, the code's constants),
`generate_boot_dat` succeeds and the SHA-256 digest of the entire returned
buffer is `6ce4c88e604d351b0e14bca7dbf135b3c8c44428718b704883599f285eed984e`
(the crate's own end-to-end test vector). -/
theorem scenario_a_end_to_end :
    generate_boot_dat [0x0A, 0x0B, 0x0C] =
      Except.ok (bootDat [0x0A, 0x0B, 0x0C]) ∧
    sha256 (bootDat [0x0A, 0x0B, 0x0C]) =
      [0x6c, 0xe4, 0xc8, 0x8e, 0x60, 0x4d, 0x35, 0x1b, 0x0e, 0x14, 0xbc,
       0xa7, 0xdb, 0xf1, 0x35, 0xb3, 0xc8, 0xc4, 0x44, 0x28, 0x71, 0x8b,
       0x70, 0x48, 0x83, 0x59, 0x9f, 0x28, 0x5e, 0xed, 0x98, 0x4e] :=
  ⟨generate_ok _ (by decide), by decide⟩

/-- C8: for every payload whose length fits in `u32`, bytes 0x00..0x0C are
the 12-byte ident constant (trailing 0x00 included), bytes 0x0C..0x10 are
the vers constant "V1.0", bytes 0x30..0x34 are the little-endian encoding
of 0x40010000 and decode to it, and bytes 0x34..0x38 are the little-endian
encoding of the payload length and decode to it. -/
theorem header_constant_fields (p : List Nat) (h : p.length < 4294967296) :
    generate_boot_dat p = Except.ok (bootDat p) ∧
    (bootDat p).take 0x0C =
      [0x49, 0x6e, 0x73, 0x61, 0x6e, 0x65, 0x20, 0x42, 0x4F, 0x4F, 0x54,
       0x00] ∧
    ((bootDat p).drop 0x0C).take 0x4 = [0x56, 0x31, 0x2E, 0x30] ∧
    ((bootDat p).drop 0x30).take 0x4 = le32 0x40010000 ∧
    read_le_u32 (((bootDat p).drop 0x30).take 0x4) = 0x40010000 ∧
    ((bootDat p).drop 0x34).take 0x4 = le32 p.length ∧
    read_le_u32 (((bootDat p).drop 0x34).take 0x4) = p.length := by
  have hs0 : bootDat p =
      identInsane ++
        (versV10 ++ (sha256_digest p ++ (le32 0x40010000 ++ (le32 p.length ++
          (le32 0 ++ (List.replicate 0x10 0 ++ (le32 0 ++
            (List.replicate 0x90 0 ++
              (sha256_digest (innerBytes p) ++ p))))))))) := by
    simp [bootDat, innerBytes, BootDatInner.write, BootDatInner.default,
      List.append_assoc]
  have hs1 : bootDat p =
      (identInsane ++ versV10 ++ sha256_digest p) ++
        (le32 0x40010000 ++ (le32 p.length ++ (le32 0 ++
          (List.replicate 0x10 0 ++ (le32 0 ++ (List.replicate 0x90 0 ++
            (sha256_digest (innerBytes p) ++ p))))))) := by
    simp [bootDat, innerBytes, BootDatInner.write, BootDatInner.default,
      List.append_assoc]
  have hs2 : bootDat p =
      (identInsane ++ versV10 ++ sha256_digest p ++ le32 0x40010000) ++
        (le32 p.length ++ (le32 0 ++ (List.replicate 0x10 0 ++ (le32 0 ++
          (List.replicate 0x90 0 ++ (sha256_digest (innerBytes p) ++ p)))))) := by
    simp [bootDat, innerBytes, BootDatInner.write, BootDatInner.default,
      List.append_assoc]
  have hident : (bootDat p).take 0x0C = identInsane := by
    rw [hs0, List.take_left' (by simp [identInsane])]
  have hvers : ((bootDat p).drop 0x0C).take 0x4 = versV10 := by
    rw [hs0, List.drop_left' (by simp [identInsane]),
      List.take_left' (by simp [versV10])]
  have hdst : ((bootDat p).drop 0x30).take 0x4 = le32 0x40010000 := by
    rw [hs1, List.drop_left'
        (by simp [identInsane, versV10, sha256_digest_length]),
      List.take_left' (by simp [le32])]
  have hsize : ((bootDat p).drop 0x34).take 0x4 = le32 p.length := by
    rw [hs2, List.drop_left'
        (by simp [identInsane, versV10, sha256_digest_length, le32]),
      List.take_left' (by simp [le32])]
  refine ⟨generate_ok p h, hident, hvers, hdst, ?_, hsize, ?_⟩
  · rw [hdst, read_le_u32_le32]
  · rw [hsize, read_le_u32_le32, Nat.mod_eq_of_lt h]

/-- C8 witness: the properties of `header_constant_fields` hold at a
three-byte payload. -/
theorem header_constant_fields_witness :
    ([0x0A, 0x0B, 0x0C] : List Nat).length < 4294967296 ∧
    (generate_boot_dat [0x0A, 0x0B, 0x0C] =
      Except.ok (bootDat [0x0A, 0x0B, 0x0C]) ∧
     (bootDat [0x0A, 0x0B, 0x0C]).take 0x0C =
      [0x49, 0x6e, 0x73, 0x61, 0x6e, 0x65, 0x20, 0x42, 0x4F, 0x4F, 0x54,
       0x00] ∧
     ((bootDat [0x0A, 0x0B, 0x0C]).drop 0x0C).take 0x4 =
      [0x56, 0x31, 0x2E, 0x30] ∧
     ((bootDat [0x0A, 0x0B, 0x0C]).drop 0x30).take 0x4 = le32 0x40010000 ∧
     read_le_u32 (((bootDat [0x0A, 0x0B, 0x0C]).drop 0x30).take 0x4) =
       0x40010000 ∧
     ((bootDat [0x0A, 0x0B, 0x0C]).drop 0x34).take 0x4 =
       le32 [0x0A, 0x0B, 0x0C].length ∧
     read_le_u32 (((bootDat [0x0A, 0x0B, 0x0C]).drop 0x34).take 0x4) =
       [0x0A, 0x0B, 0x0C].length) :=
  ⟨by decide, header_constant_fields [0x0A, 0x0B, 0x0C] (by decide)⟩

/-- C9: for every payload whose length fits in `u32`, bytes 0x38..0x3C
(`s2_enc`), 0x3C..0x4C (`pad`), 0x4C..0x50 (`s3_size`) and 0x50..0xE0
(`pad2`) of the output are all zero. -/
theorem reserved_fields_zero (p : List Nat) (h : p.length < 4294967296) :
    generate_boot_dat p = Except.ok (bootDat p) ∧
    ((bootDat p).drop 0x38).take 0x4 = List.replicate 0x4 0 ∧
    ((bootDat p).drop 0x3C).take 0x10 = List.replicate 0x10 0 ∧
    ((bootDat p).drop 0x4C).take 0x4 = List.replicate 0x4 0 ∧
    ((bootDat p).drop 0x50).take 0x90 = List.replicate 0x90 0 := by
  have hs3 : bootDat p =
      (identInsane ++ versV10 ++ sha256_digest p ++ le32 0x40010000 ++
        le32 p.length) ++
        (le32 0 ++ (List.replicate 0x10 0 ++ (le32 0 ++
          (List.replicate 0x90 0 ++ (sha256_digest (innerBytes p) ++ p))))) := by
    simp [bootDat, innerBytes, BootDatInner.write, BootDatInner.default,
      List.append_assoc]
  have hs4 : bootDat p =
      (identInsane ++ versV10 ++ sha256_digest p ++ le32 0x40010000 ++
        le32 p.length ++ le32 0) ++
        (List.replicate 0x10 0 ++ (le32 0 ++ (List.replicate 0x90 0 ++
          (sha256_digest (innerBytes p) ++ p)))) := by
    simp [bootDat, innerBytes, BootDatInner.write, BootDatInner.default,
      List.append_assoc]
  have hs5 : bootDat p =
      (identInsane ++ versV10 ++ sha256_digest p ++ le32 0x40010000 ++
        le32 p.length ++ le32 0 ++ List.replicate 0x10 0) ++
        (le32 0 ++ (List.replicate 0x90 0 ++
          (sha256_digest (innerBytes p) ++ p))) := by
    simp [bootDat, innerBytes, BootDatInner.write, BootDatInner.default,
      List.append_assoc]
  have hs6 : bootDat p =
      (identInsane ++ versV10 ++ sha256_digest p ++ le32 0x40010000 ++
        le32 p.length ++ le32 0 ++ List.replicate 0x10 0 ++ le32 0) ++
        (List.replicate 0x90 0 ++ (sha256_digest (innerBytes p) ++ p)) := by
    simp [bootDat, innerBytes, BootDatInner.write, BootDatInner.default,
      List.append_assoc]
  refine ⟨generate_ok p h, ?_, ?_, ?_, ?_⟩
  · rw [hs3, List.drop_left'
        (by simp [identInsane, versV10, sha256_digest_length, le32]),
      List.take_left' (by simp [le32])]
    decide
  · rw [hs4, List.drop_left'
        (by simp [identInsane, versV10, sha256_digest_length, le32]),
      List.take_left' (by simp)]
  · rw [hs5, List.drop_left'
        (by simp [identInsane, versV10, sha256_digest_length, le32]),
      List.take_left' (by simp [le32])]
    decide
  · rw [hs6, List.drop_left'
        (by simp [identInsane, versV10, sha256_digest_length, le32]),
      List.take_left' (by simp)]

/-- C9 witness: the properties of `reserved_fields_zero` hold at a
three-byte payload. -/
theorem reserved_fields_zero_witness :
    ([0x0A, 0x0B, 0x0C] : List Nat).length < 4294967296 ∧
    (generate_boot_dat [0x0A, 0x0B, 0x0C] =
      Except.ok (bootDat [0x0A, 0x0B, 0x0C]) ∧
     ((bootDat [0x0A, 0x0B, 0x0C]).drop 0x38).take 0x4 =
       List.replicate 0x4 0 ∧
     ((bootDat [0x0A, 0x0B, 0x0C]).drop 0x3C).take 0x10 =
       List.replicate 0x10 0 ∧
     ((bootDat [0x0A, 0x0B, 0x0C]).drop 0x4C).take 0x4 =
       List.replicate 0x4 0 ∧
     ((bootDat [0x0A, 0x0B, 0x0C]).drop 0x50).take 0x90 =
       List.replicate 0x90 0) :=
  ⟨by decide, reserved_fields_zero [0x0A, 0x0B, 0x0C] (by decide)⟩

/-- C10: `generate_boot_dat` never returns `HashError` or `IoError`: on
every payload it either succeeds or fails with `TruncationError`. -/
theorem only_truncation_error (p : List Nat) :
    (generate_boot_dat p = Except.error Error.TruncationError ∨
     generate_boot_dat p = Except.ok (bootDat p)) ∧
    (∀ s : String, generate_boot_dat p ≠ Except.error (Error.IoError s)) ∧
    generate_boot_dat p ≠ Except.error Error.HashError := by
  by_cases h : p.length < 4294967296
  · rw [generate_ok p h]
    exact ⟨Or.inr rfl, fun s => by simp, by simp⟩
  · rw [generate_trunc p h]
    exact ⟨Or.inl rfl, fun s => by simp, by simp⟩

end TxCustomBoot
